import Mathlib

/-!
Verification of the x402 payment-gating starter (Express template + scaffolding CLI).

The repository consists of a scaffolding CLI (`bin/create.js`), an Express
template application (`template/app.ts`) whose route table configures the
`x402-express` payment middleware, and tests. The middleware itself (route
matcher, requirement resolver, gate) is an external dependency; its behaviour
is modelled here from the specification, while the route table, the protected
handlers, the health endpoint and the CLI guard are embedded from the sources.
-/

/-- Character-list test: `pre` is a leading run of `s`. -/
def isPre : List Char → List Char → Bool
  | [], _ => true
  | _ :: _, [] => false
  | a :: as, b :: bs => a == b && isPre as bs

/-- String test: `strStarts s p` holds when `s` begins with the literal `p`. -/
def strStarts (s p : String) : Bool := isPre p.data s.data

/-- String test: `strEnds s p` holds when `s` ends with the literal `p`. -/
def strEnds (s p : String) : Bool := isPre p.data.reverse s.data.reverse

/-- Drop the final character of a string (used to turn a `/stem/*` pattern
into its literal stem `/stem/`). -/
def dropLastChar (s : String) : String := ⟨s.data.dropLast⟩

/-- HTTP methods the tests exercise. -/
inductive Method where
  | GET | POST | PUT | DELETE | PATCH | HEAD | OPTIONS
deriving DecidableEq, Repr

/-- EIP-712 domain descriptor, copied verbatim from the route configuration
in `template/app.ts` when present. -/
structure Eip712Domain where
  name : String
  version : String
deriving DecidableEq, Repr

/-- Asset reference of an atomic price: contract address, decimals and
optional EIP-712 domain (`template/app.ts` premium route). -/
structure AssetRef where
  address : String
  decimals : Nat
  eip712 : Option Eip712Domain
deriving DecidableEq, Repr

/-- PriceSpec tagged union: a dollar-denominated string such as `$0.001`, or
an atomic amount with an asset reference. -/
inductive PriceSpec where
  | dollar (amount : String)
  | atomic (amount : String) (asset : AssetRef)
deriving DecidableEq, Repr

/-- One route-table entry: optional HTTP method (a key such as `GET /weather`
carries a method, a bare key such as `/premium/*` matches every method), a
path pattern (exact literal or trailing `/*` wildcard), the price and the
network. -/
structure RouteEntry where
  method : Option Method
  pattern : String
  price : PriceSpec
  network : String
deriving DecidableEq, Repr

/-- The `GET /weather` entry of the route table in `template/app.ts`:
dollar price `$0.001` on `base-sepolia`. -/
def weatherRoute : RouteEntry :=
  { method := some Method.GET
    pattern := "/weather"
    price := PriceSpec.dollar "$0.001"
    network := "base-sepolia" }

/-- The `/premium/*` entry of the route table in `template/app.ts`: atomic
price `100000` of the token at `0xabc` (18 decimals, WETH v1 domain) on
`base-sepolia`; no method restriction. -/
def premiumRoute : RouteEntry :=
  { method := none
    pattern := "/premium/*"
    price := PriceSpec.atomic "100000"
      { address := "0xabc", decimals := 18
        eip712 := some { name := "WETH", version := "1" } }
    network := "base-sepolia" }

/-- The full route table passed to `paymentMiddleware` in `template/app.ts`. -/
def appRoutes : List RouteEntry := [weatherRoute, premiumRoute]

/-- A pattern is a wildcard when it ends in `/*`. -/
def isWildcard (pat : String) : Bool := strEnds pat "/*"

/-- Literal stem of a wildcard pattern: `/premium/*` has stem `/premium/`. -/
def wildcardStem (pat : String) : String := dropLastChar pat

/-- Modelled from the spec: a method-restricted pattern matches only its own
method; an unrestricted pattern matches every method. -/
def methodMatches (m : Option Method) (req : Method) : Bool :=
  match m with
  | none => true
  | some m => m == req

/-- Modelled from the spec: an exact pattern matches only its literal path; a
wildcard pattern `/stem/*` matches exactly the paths that begin with the
segment-aligned literal `/stem/` (zero or more trailing segments after it),
never a partial segment name and never the bare `/stem`. -/
def patternMatchesPath (pat path : String) : Bool :=
  if isWildcard pat then strStarts path (wildcardStem pat) else pat == path

/-- An entry matches a request when both its method and its path pattern do. -/
def entryMatches (e : RouteEntry) (m : Method) (path : String) : Bool :=
  methodMatches e.method m && patternMatchesPath e.pattern path

/-- An entry is exact when its pattern is not a wildcard. -/
def isExact (e : RouteEntry) : Bool := !(isWildcard e.pattern)

/-- Longest-stem selection among wildcard candidates; on equal lengths the
earlier entry wins. -/
def bestWildcard : List RouteEntry → Option RouteEntry
  | [] => none
  | e :: es =>
    match bestWildcard es with
    | none => some e
    | some b => if b.pattern.length > e.pattern.length then some b else some e

/-- Modelled from the spec: the Route Matcher (owned by the `x402-express`
dependency, not present in this repository). Exact patterns are checked
first and an exact match on (method, path) wins unconditionally; otherwise
the wildcard candidate with the longest literal stem wins; no match yields
`none` and the caller falls through to normal routing. -/
def matchRoute (cfg : List RouteEntry) (m : Method) (path : String) :
    Option RouteEntry :=
  match cfg.find? (fun e => isExact e && entryMatches e m path) with
  | some e => some e
  | none => bestWildcard (cfg.filter (fun e => !(isExact e) && entryMatches e m path))

/-- Numeric value of a digit run (`"001"` evaluates to `1`). -/
def digitsVal (cs : List Char) : Nat :=
  cs.foldl (fun n c => n * 10 + (c.toNat - 48)) 0

/-- Split a character list at the first `.`; the second component is `none`
when there is no dot. -/
def splitAtDot : List Char → List Char × Option (List Char)
  | [] => ([], none)
  | c :: cs =>
    if c == '.' then ([], some cs)
    else
      let r := splitAtDot cs
      (c :: r.1, r.2)

/-- Modelled from the spec: convert a decimal-string dollar amount (already
stripped of its `$`) to atomic units at the given decimal precision; excess
fractional digits are truncated. `"0.001"` at 6 decimals is `1000`. -/
def decimalToAtomic (s : String) (decimals : Nat) : Nat :=
  match splitAtDot s.data with
  | (i, none) => digitsVal i * 10 ^ decimals
  | (i, some f) =>
    let f := f.take decimals
    digitsVal i * 10 ^ decimals + digitsVal f * 10 ^ (decimals - f.length)

/-- USDC contract address on Base Sepolia, the default stablecoin used for
dollar-priced routes on that network. -/
def usdcBaseSepolia : String := "0x036CbD53842c5426634e7929541eC2318f3dCF7e"

/-- USDC contract address on Base mainnet. -/
def usdcBase : String := "0x833589fCD6eDb6E08f4c7C32D4f71b54bdA02913"

/-- Modelled from the spec: default stablecoin (address, decimals) registered
per network for dollar-denominated pricing; absence is a configuration
error, not a request-time error. -/
def defaultAsset (network : String) : Option (String × Nat) :=
  if network == "base-sepolia" then some (usdcBaseSepolia, 6)
  else if network == "base" then some (usdcBase, 6)
  else none

/-- The canonical resolved payment-requirement record returned in 402 bodies
(fields observed in the tests and the template README). -/
structure PaymentRequirement where
  scheme : String
  network : String
  payTo : String
  maxAmountRequired : String
  resource : String
  maxTimeoutSeconds : Nat
  asset : String
deriving DecidableEq, Repr

/-- Modelled from the spec: the Requirement Resolver (owned by the
`x402-express` dependency). Dollar prices are converted to atomic units of
the network default stablecoin (`none` when no default asset is registered —
a configuration error); atomic amounts pass through unchanged with the asset
address copied verbatim; `scheme` is the constant `exact` and
`maxTimeoutSeconds` defaults to 60. -/
def resolve (e : RouteEntry) (payTo : String) (resource : String) :
    Option PaymentRequirement :=
  match e.price with
  | PriceSpec.dollar amt =>
    match defaultAsset e.network with
    | none => none
    | some (addr, dec) =>
      some { scheme := "exact", network := e.network, payTo := payTo
             maxAmountRequired := toString (decimalToAtomic (amt.drop 1) dec)
             resource := resource, maxTimeoutSeconds := 60, asset := addr }
  | PriceSpec.atomic amt asset =>
    some { scheme := "exact", network := e.network, payTo := payTo
           maxAmountRequired := amt, resource := resource
           maxTimeoutSeconds := 60, asset := asset.address }

/-- Minimal JSON value type for response bodies. -/
inductive Json where
  | str : String → Json
  | num : Nat → Json
  | obj : List (String × Json) → Json

/-- JSON encoding of a resolved requirement, the `paymentRequirements` field
of a 402 body. -/
def reqJson (pr : PaymentRequirement) : Json :=
  Json.obj
    [("scheme", Json.str pr.scheme)
    , ("network", Json.str pr.network)
    , ("payTo", Json.str pr.payTo)
    , ("maxAmountRequired", Json.str pr.maxAmountRequired)
    , ("resource", Json.str pr.resource)
    , ("maxTimeoutSeconds", Json.num pr.maxTimeoutSeconds)
    , ("asset", Json.str pr.asset)]

/-- Field lookup in a JSON object body (`none` on non-objects). -/
def bodyField (b : Json) (k : String) : Option Json :=
  match b with
  | Json.obj fs => (fs.find? (fun kv => kv.fst == k)).map (fun kv => kv.snd)
  | _ => none

/-- An HTTP response: status, JSON body, extra headers. -/
structure Response where
  status : Nat
  body : Json
  headers : List (String × String)

/-- An inbound HTTP request: method, URL scheme, host, path, query string and
the optional `X-PAYMENT` header (`none` when the header is absent). -/
structure Request where
  method : Method
  urlScheme : String
  host : String
  path : String
  query : Option String
  xPayment : Option String

/-- Modelled from the spec: the absolute resource URL rebuilt from the
request URL scheme, host and path; the query string is excluded. -/
def resourceUrl (r : Request) : String :=
  r.urlScheme ++ "://" ++ r.host ++ r.path

/-- Verdict returned by the external facilitator: accepted flag, settlement
receipt (present iff accepted) and reason code (present iff rejected). -/
structure Verdict where
  accepted : Bool
  settlementReceipt : Option String
  reasonCode : Option String
deriving DecidableEq, Repr

/-- The 402 rejection response: a human-readable error string and the full
resolved requirement under the field name `paymentRequirements`. -/
def reject402 (msg : String) (pr : PaymentRequirement) : Response :=
  { status := 402
    body := Json.obj [("error", Json.str msg), ("paymentRequirements", reqJson pr)]
    headers := [] }

/-- Default not-found response produced by downstream routing when no handler
is registered for the request. -/
def notFoundResp : Response :=
  { status := 404, body := Json.str "Not Found", headers := [] }

/-- Response produced when requirement resolution fails (a configuration
error; with a validated configuration this branch is unreachable because the
spec requires the process to refuse to start). -/
def configErrorResp : Response :=
  { status := 500, body := Json.str "configuration error", headers := [] }

/-- Downstream routing: run the registered handler, or 404 when none. -/
def passthru (handlers : Request → Option Response) (req : Request) : Response :=
  match handlers req with
  | some r => r
  | none => notFoundResp

/-- Result of one request through the gate: the response sent to the client
and the number of outbound facilitator calls performed. -/
structure AppResult where
  response : Response
  facilitatorCalls : Nat

/-- Modelled from the spec: the Gate (owned by the `x402-express`
dependency), split into stages. `gateVerify` performs the single outbound
facilitator call for a present, non-empty proof: acceptance delegates to the
protected handler and appends the `X-PAYMENT-RESPONSE` settlement-receipt
header to its response; rejection yields a 402 of the unpaid shape annotated
with the reason. -/
def gateVerify (handlers : Request → Option Response)
    (fac : String → PaymentRequirement → Verdict) (req : Request)
    (pr : PaymentRequirement) (pf : String) : AppResult :=
  let v := fac pf pr
  if v.accepted then
    let base := passthru handlers req
    { response :=
        { base with
          headers := base.headers ++
            [("X-PAYMENT-RESPONSE", v.settlementReceipt.getD "")] }
      facilitatorCalls := 1 }
  else
    { response := reject402 ("payment rejected: " ++ v.reasonCode.getD "") pr
      facilitatorCalls := 1 }

/-- The immediate unpaid rejection: 402 with the requirement embedded and no
facilitator call. -/
def unpaidResult (pr : PaymentRequirement) : AppResult :=
  { response := reject402 "X-PAYMENT header is required" pr
    facilitatorCalls := 0 }

/-- Emptiness check on a present header value: the empty string is treated
exactly like an absent header, anything else goes to verification. -/
def gateCheck (handlers : Request → Option Response)
    (fac : String → PaymentRequirement → Verdict) (req : Request)
    (pr : PaymentRequirement) (pf : String) : Bool → AppResult
  | true => unpaidResult pr
  | false => gateVerify handlers fac req pr pf

/-- Dispatch on the optional `X-PAYMENT` header value. -/
def gateHeader (handlers : Request → Option Response)
    (fac : String → PaymentRequirement → Verdict) (req : Request)
    (pr : PaymentRequirement) : Option String → AppResult
  | none => unpaidResult pr
  | some pf => gateCheck handlers fac req pr pf (pf == "")

/-- Gate stage after requirement resolution: an absent or empty `X-PAYMENT`
header is an immediate 402 with no facilitator call; a non-empty header goes
to verification. -/
def gateResolved (handlers : Request → Option Response)
    (fac : String → PaymentRequirement → Verdict) (req : Request)
    (pr : PaymentRequirement) : AppResult :=
  gateHeader handlers fac req pr req.xPayment

/-- Gate stage after a route match: resolve the requirement (failure is a
configuration error) and inspect the proof-of-payment header. -/
def gateMatched (payTo : String) (handlers : Request → Option Response)
    (fac : String → PaymentRequirement → Verdict) (req : Request)
    (e : RouteEntry) : AppResult :=
  match resolve e payTo (resourceUrl req) with
  | none => { response := configErrorResp, facilitatorCalls := 0 }
  | some pr => gateResolved handlers fac req pr

/-- Modelled from the spec: one request through the Gate. No route match
falls through to downstream routing with no facilitator call; a match enters
the staged gate. -/
def handleRequest (cfg : List RouteEntry) (payTo : String)
    (handlers : Request → Option Response)
    (fac : String → PaymentRequirement → Verdict) (req : Request) : AppResult :=
  match matchRoute cfg req.method req.path with
  | none => { response := passthru handlers req, facilitatorCalls := 0 }
  | some e => gateMatched payTo handlers fac req e

/-- Body of the protected `GET /weather` handler in `template/app.ts`. -/
def weatherBody : Json :=
  Json.obj [("report", Json.obj [("weather", Json.str "sunny"), ("temperature", Json.num 70)])]

/-- Body of the protected `GET /premium/content` handler in `template/app.ts`. -/
def premiumBody : Json :=
  Json.obj [("content", Json.str "This is premium content")]

/-- Body of the unprotected `GET /health` handler in `template/app.ts`. -/
def healthBody : Json :=
  Json.obj [("status", Json.str "ok"), ("service", Json.str "x402-express-server")]

/-- The route layers registered on the Express app in `template/app.ts`
after the payment middleware: `GET /weather`, `GET /premium/content` and
`GET /health`, each with its handler response. -/
def registeredRoutes : List (Method × String × Response) :=
  [ (Method.GET, "/weather", { status := 200, body := weatherBody, headers := [] })
  , (Method.GET, "/premium/content", { status := 200, body := premiumBody, headers := [] })
  , (Method.GET, "/health", { status := 200, body := healthBody, headers := [] }) ]

/-- Handler response registered for exactly this (method, path), if any. -/
def routeFor (m : Method) (p : String) : Option Response :=
  (registeredRoutes.find? (fun r => r.1 == m && r.2.1 == p)).map (fun r => r.2.2)

/-- Whether any route layer is registered at this path, for any method. -/
def pathHasRoute (p : String) : Bool :=
  registeredRoutes.any (fun r => r.2.1 == p)

/-- Wire name of an HTTP method. -/
def methodName : Method → String
  | Method.GET => "GET"
  | Method.POST => "POST"
  | Method.PUT => "PUT"
  | Method.DELETE => "DELETE"
  | Method.PATCH => "PATCH"
  | Method.HEAD => "HEAD"
  | Method.OPTIONS => "OPTIONS"

/-- Methods with a route layer registered at this path. -/
def methodsAt (p : String) : List Method :=
  (registeredRoutes.filter (fun r => r.2.1 == p)).map (fun r => r.1)

/-- Method names Express advertises in the automatic `Allow` response for a
path: the registered methods, plus `HEAD` when a `GET` layer exists (Express
serves `HEAD` through it). -/
def allowList (p : String) : List String :=
  (methodsAt p).map methodName ++
    (if (methodsAt p).contains Method.GET then ["HEAD"] else [])

/-- Comma-join, as in the `Allow` header value. -/
def joinComma : List String → String
  | [] => ""
  | [x] => x
  | x :: rest => x ++ "," ++ joinComma rest

/-- The downstream Express routing of the app in `template/app.ts`: a
registered (method, path) layer answers with its handler response; a `HEAD`
request with no `HEAD` layer is served through the `GET` layer for the path;
an `OPTIONS` request to a path with registered layers is auto-answered 200
with the `Allow` header; everything else is unhandled and falls to the
final 404. -/
def appHandlers (req : Request) : Option Response :=
  match routeFor req.method req.path with
  | some r => some r
  | none =>
    match req.method with
    | Method.HEAD => routeFor Method.GET req.path
    | Method.OPTIONS =>
      if pathHasRoute req.path then
        some { status := 200
               body := Json.str (joinComma (allowList req.path))
               headers := [("Allow", joinComma (allowList req.path))] }
      else none
    | _ => none

/-- The full application of `createApp` in `template/app.ts`: the payment
middleware configured with `appRoutes` in front of `appHandlers`. -/
def appHandle (payTo : String) (fac : String → PaymentRequirement → Verdict)
    (req : Request) : AppResult :=
  handleRequest appRoutes payTo appHandlers fac req

/-- Filesystem facts the scaffolding CLI `bin/create.js` inspects: whether
the target directory exists, its entries when it does, and which optional
template files are present. -/
structure CreateEnv where
  targetExists : Bool
  targetEntries : List String
  templateHasPkgJson : Bool
  templateHasEnvLocal : Bool
  templateHasEnvExample : Bool
deriving DecidableEq, Repr

/-- Side-effecting steps `bin/create.js` can perform, in program order. -/
inductive ScaffoldAction where
  | copyTemplate
  | writePkgJson
  | writeEnv
  | npmInstall
  | gitInit
deriving DecidableEq, Repr

/-- Outcome of one run of the scaffolding CLI: exit code, whether the
non-empty-target error was printed, and the ordered side effects performed. -/
structure CreateResult where
  exitCode : Nat
  errorPrinted : Bool
  actions : List ScaffoldAction
deriving DecidableEq, Repr

/-- The main flow of `bin/create.js`: when the target directory exists and is
non-empty, print the error and exit 1 before any other step; otherwise copy
the template, rewrite `package.json` when present, copy an env template when
one exists, run `npm install` and `git init`. -/
def createMain (env : CreateEnv) : CreateResult :=
  if env.targetExists && !env.targetEntries.isEmpty then
    { exitCode := 1, errorPrinted := true, actions := [] }
  else
    let a1 := [ScaffoldAction.copyTemplate]
    let a2 := if env.templateHasPkgJson then a1 ++ [ScaffoldAction.writePkgJson] else a1
    let a3 :=
      if env.templateHasEnvLocal || env.templateHasEnvExample then
        a2 ++ [ScaffoldAction.writeEnv]
      else a2
    { exitCode := 0, errorPrinted := false
      actions := a3 ++ [ScaffoldAction.npmInstall, ScaffoldAction.gitInit] }

/-- Resolving the weather route yields the `$0.001`-in-USDC requirement:
amount `1000` atomic units (6 decimals), independent of recipient and URL. -/
theorem resolve_weather (payTo res : String) :
    resolve weatherRoute payTo res =
      some { scheme := "exact", network := "base-sepolia", payTo := payTo
             maxAmountRequired := "1000", resource := res
             maxTimeoutSeconds := 60, asset := usdcBaseSepolia } := rfl

/-- Resolving the premium route passes the atomic amount `100000` and the
asset address through unchanged. -/
theorem resolve_premium (payTo res : String) :
    resolve premiumRoute payTo res =
      some { scheme := "exact", network := "base-sepolia", payTo := payTo
             maxAmountRequired := "100000", resource := res
             maxTimeoutSeconds := 60, asset := "0xabc" } := rfl

/-- Selection lemma: `bestWildcard` only ever selects a member of its candidate list. -/
theorem bestWildcard_mem : ∀ {l : List RouteEntry} {b : RouteEntry},
    bestWildcard l = some b → b ∈ l := by
  intro l
  induction l with
  | nil => intro b h; simp [bestWildcard] at h
  | cons e es ih =>
    intro b h
    unfold bestWildcard at h
    cases hbw : bestWildcard es with
    | none =>
      rw [hbw] at h
      cases h
      exact List.mem_cons_self _ _
    | some b' =>
      rw [hbw] at h
      dsimp only at h
      split at h
      · cases h; exact List.mem_cons_of_mem _ (ih hbw)
      · cases h; exact List.mem_cons_self _ _

/-- Any entry the matcher selects satisfies `entryMatches` for the request. -/
theorem matchRoute_matches {cfg : List RouteEntry} {m : Method} {p : String}
    {e : RouteEntry} (h : matchRoute cfg m p = some e) :
    entryMatches e m p = true := by
  unfold matchRoute at h
  cases hf : cfg.find? (fun e => isExact e && entryMatches e m p) with
  | some e' =>
    rw [hf] at h
    cases h
    have hp := List.find?_some hf
    rw [Bool.and_eq_true] at hp
    exact hp.2
  | none =>
    rw [hf] at h
    have hmem := bestWildcard_mem h
    have hp := (List.mem_filter.mp hmem).2
    rw [Bool.and_eq_true] at hp
    exact hp.2

/-- Unfolding lemma: a route match enters the staged gate. -/
theorem handleRequest_match_some {cfg : List RouteEntry} {payTo : String}
    {handlers : Request → Option Response}
    {fac : String → PaymentRequirement → Verdict} {req : Request}
    {e : RouteEntry} (hm : matchRoute cfg req.method req.path = some e) :
    handleRequest cfg payTo handlers fac req = gateMatched payTo handlers fac req e := by
  unfold handleRequest
  rw [hm]

/-- Unfolding lemma: no route match falls through to downstream routing with
zero facilitator calls. -/
theorem handleRequest_match_none {cfg : List RouteEntry} {payTo : String}
    {handlers : Request → Option Response}
    {fac : String → PaymentRequirement → Verdict} {req : Request}
    (hm : matchRoute cfg req.method req.path = none) :
    handleRequest cfg payTo handlers fac req =
      { response := passthru handlers req, facilitatorCalls := 0 } := by
  unfold handleRequest
  rw [hm]

/-- Unfolding lemma: successful resolution hands the requirement to the
header inspection stage. -/
theorem gateMatched_some {payTo : String} {handlers : Request → Option Response}
    {fac : String → PaymentRequirement → Verdict} {req : Request}
    {e : RouteEntry} {pr : PaymentRequirement}
    (hr : resolve e payTo (resourceUrl req) = some pr) :
    gateMatched payTo handlers fac req e = gateResolved handlers fac req pr := by
  unfold gateMatched
  rw [hr]

/-- Unfolding lemma: failed resolution is the configuration-error response. -/
theorem gateMatched_none {payTo : String} {handlers : Request → Option Response}
    {fac : String → PaymentRequirement → Verdict} {req : Request}
    {e : RouteEntry} (hr : resolve e payTo (resourceUrl req) = none) :
    gateMatched payTo handlers fac req e =
      { response := configErrorResp, facilitatorCalls := 0 } := by
  unfold gateMatched
  rw [hr]

/-- Unfolding lemma: an absent `X-PAYMENT` header is an immediate 402 with
no facilitator call. -/
theorem gateResolved_absent {handlers : Request → Option Response}
    {fac : String → PaymentRequirement → Verdict} {req : Request}
    {pr : PaymentRequirement} (hx : req.xPayment = none) :
    gateResolved handlers fac req pr = unpaidResult pr := by
  unfold gateResolved
  rw [hx]
  rfl

/-- Unfolding lemma: an empty-string `X-PAYMENT` header is an immediate 402
with no facilitator call. -/
theorem gateResolved_empty {handlers : Request → Option Response}
    {fac : String → PaymentRequirement → Verdict} {req : Request}
    {pr : PaymentRequirement} (hx : req.xPayment = some "") :
    gateResolved handlers fac req pr = unpaidResult pr := by
  unfold gateResolved
  rw [hx]
  rfl

/-- Unfolding lemma: a present non-empty `X-PAYMENT` header goes to the
verification stage. -/
theorem gateResolved_present {handlers : Request → Option Response}
    {fac : String → PaymentRequirement → Verdict} {req : Request}
    {pr : PaymentRequirement} {pf : String}
    (hx : req.xPayment = some pf) (hpf : (pf == "") = false) :
    gateResolved handlers fac req pr = gateVerify handlers fac req pr pf := by
  unfold gateResolved
  rw [hx]
  show gateCheck handlers fac req pr pf (pf == "") = gateVerify handlers fac req pr pf
  rw [hpf]
  rfl

/-- Unfolding lemma: an accepting verdict with receipt delegates to the
downstream handler and appends the settlement-receipt header. -/
theorem gateVerify_accepted {handlers : Request → Option Response}
    {fac : String → PaymentRequirement → Verdict} {req : Request}
    {pr : PaymentRequirement} {pf rc : String}
    (hfac : fac pf pr =
      { accepted := true, settlementReceipt := some rc, reasonCode := none }) :
    gateVerify handlers fac req pr pf =
      { response :=
          { passthru handlers req with
            headers := (passthru handlers req).headers ++
              [("X-PAYMENT-RESPONSE", rc)] }
        facilitatorCalls := 1 } := by
  unfold gateVerify
  rw [hfac]
  rfl

/-- C3: the wildcard route pattern `/premium/*` matches the paths
`/premium/content` and `/premium/x/y`, does not match `/premiumX`, and does
not match the bare path `/premium`. -/
theorem wildcard_premium_matching :
    patternMatchesPath "/premium/*" "/premium/content" = true ∧
    patternMatchesPath "/premium/*" "/premium/x/y" = true ∧
    patternMatchesPath "/premium/*" "/premiumX" = false ∧
    patternMatchesPath "/premium/*" "/premium" = false :=
  ⟨rfl, rfl, rfl, rfl⟩

/-- C9: a `GET /health` request, whatever the `X-PAYMENT` header holds,
bypasses the payment gate (no facilitator call) and returns HTTP 200 with
exactly the JSON body with status `ok` and service `x402-express-server`. -/
theorem health_bypasses_gate (payTo sch host : String) (qs xp : Option String)
    (fac : String → PaymentRequirement → Verdict) :
    (appHandle payTo fac
        { method := Method.GET, urlScheme := sch, host := host
          path := "/health", query := qs, xPayment := xp }).response.status = 200 ∧
    (appHandle payTo fac
        { method := Method.GET, urlScheme := sch, host := host
          path := "/health", query := qs, xPayment := xp }).response.body =
      Json.obj [("status", Json.str "ok"), ("service", Json.str "x402-express-server")] ∧
    (appHandle payTo fac
        { method := Method.GET, urlScheme := sch, host := host
          path := "/health", query := qs, xPayment := xp }).facilitatorCalls = 0 :=
  ⟨rfl, rfl, rfl⟩

/-- C10: when the scaffolding CLI target directory exists and is non-empty,
`createMain` prints the error and exits with code 1 having performed no
copy, write, install or git step at all (the empty action list), so the
target directory contents are untouched. -/
theorem create_nonempty_target_aborts (env : CreateEnv)
    (hex : env.targetExists = true) (hne : env.targetEntries ≠ []) :
    createMain env = { exitCode := 1, errorPrinted := true, actions := [] } := by
  have hemp : env.targetEntries.isEmpty = false := by
    cases h : env.targetEntries with
    | nil => exact absurd h hne
    | cons a l => rfl
  unfold createMain
  rw [hex, hemp]
  rfl

/-- Witness for C10 at a concrete filesystem state: target exists with one
entry, so the run is exit code 1, error printed, no actions. -/
theorem create_nonempty_target_aborts_witness :
    createMain
        { targetExists := true, targetEntries := ["old.txt"]
          templateHasPkgJson := true, templateHasEnvLocal := true
          templateHasEnvExample := false } =
      { exitCode := 1, errorPrinted := true, actions := [] } :=
  create_nonempty_target_aborts _ rfl (by decide)

/-- C5: for the two configured routes, distinct entries with different
PriceSpecs resolve to different `maxAmountRequired` values; in particular the
atomic-priced premium route resolves to exactly `100000`, which differs from
the resolved amount of the dollar-priced weather route (`1000`). -/
theorem distinct_prices_distinct_amounts :
    (∀ (e1 e2 : RouteEntry) (payTo r1 r2 : String)
        (pr1 pr2 : PaymentRequirement),
        e1 ∈ appRoutes → e2 ∈ appRoutes → e1 ≠ e2 → e1.price ≠ e2.price →
        resolve e1 payTo r1 = some pr1 → resolve e2 payTo r2 = some pr2 →
        pr1.maxAmountRequired ≠ pr2.maxAmountRequired) ∧
    (∀ (payTo r : String) (pr : PaymentRequirement),
        resolve premiumRoute payTo r = some pr →
        pr.maxAmountRequired = "100000") := by
  constructor
  · intro e1 e2 payTo r1 r2 pr1 pr2 h1 h2 hne _ hr1 hr2
    simp only [appRoutes, List.mem_cons, List.mem_singleton, List.not_mem_nil, or_false] at h1 h2
    rcases h1 with h1 | h1 <;> rcases h2 with h2 | h2 <;> subst h1 <;> subst h2
    · exact absurd rfl hne
    · rw [resolve_weather] at hr1
      rw [resolve_premium] at hr2
      cases hr1; cases hr2
      exact (by decide : ("1000" : String) ≠ "100000")
    · rw [resolve_premium] at hr1
      rw [resolve_weather] at hr2
      cases hr1; cases hr2
      exact (by decide : ("100000" : String) ≠ "1000")
    · exact absurd rfl hne
  · intro payTo r pr hr
    rw [resolve_premium] at hr
    cases hr
    rfl

/-- Witness for C5 at the concrete route pair: the weather route resolves to
amount `1000`, the premium route to `100000`, and they differ. -/
theorem distinct_prices_distinct_amounts_witness :
    ("1000" : String) ≠ "100000" ∧ ("100000" : String) = "100000" :=
  ⟨distinct_prices_distinct_amounts.1 weatherRoute premiumRoute "0xA" "u1" "u2"
      _ _ (by decide) (by decide) (by decide) (by decide)
      (resolve_weather "0xA" "u1") (resolve_premium "0xA" "u2")
  , distinct_prices_distinct_amounts.2 "0xA" "u2" _ (resolve_premium "0xA" "u2")⟩

/-- C1: for any request matched to a configured route whose `X-PAYMENT`
header is absent or the empty string, the gate responds 402 with a body
holding the error string and the full resolved requirement under
`paymentRequirements`, and performs no outbound facilitator call. -/
theorem missing_payment_402_no_call (cfg : List RouteEntry) (payTo : String)
    (handlers : Request → Option Response)
    (fac : String → PaymentRequirement → Verdict) (req : Request)
    (e : RouteEntry) (pr : PaymentRequirement)
    (hm : matchRoute cfg req.method req.path = some e)
    (hr : resolve e payTo (resourceUrl req) = some pr)
    (hx : req.xPayment = none ∨ req.xPayment = some "") :
    (handleRequest cfg payTo handlers fac req).response.status = 402 ∧
    bodyField (handleRequest cfg payTo handlers fac req).response.body "error" =
      some (Json.str "X-PAYMENT header is required") ∧
    bodyField (handleRequest cfg payTo handlers fac req).response.body
        "paymentRequirements" = some (reqJson pr) ∧
    (handleRequest cfg payTo handlers fac req).facilitatorCalls = 0 := by
  rw [handleRequest_match_some hm, gateMatched_some hr]
  rcases hx with hx | hx
  · rw [gateResolved_absent hx]
    exact ⟨rfl, rfl, rfl, rfl⟩
  · rw [gateResolved_empty hx]
    exact ⟨rfl, rfl, rfl, rfl⟩

/-- Witness for C1: unpaid `GET /weather` against the template route table
yields 402 carrying the resolved requirement and zero facilitator calls. -/
theorem missing_payment_402_no_call_witness :
    (handleRequest appRoutes "0xA" appHandlers (fun _ _ => ⟨false, none, none⟩)
        { method := Method.GET, urlScheme := "http", host := "localhost:4021"
          path := "/weather", query := none, xPayment := none }).response.status = 402 ∧
    bodyField (handleRequest appRoutes "0xA" appHandlers (fun _ _ => ⟨false, none, none⟩)
        { method := Method.GET, urlScheme := "http", host := "localhost:4021"
          path := "/weather", query := none, xPayment := none }).response.body "error" =
      some (Json.str "X-PAYMENT header is required") ∧
    bodyField (handleRequest appRoutes "0xA" appHandlers (fun _ _ => ⟨false, none, none⟩)
        { method := Method.GET, urlScheme := "http", host := "localhost:4021"
          path := "/weather", query := none, xPayment := none }).response.body
        "paymentRequirements" =
      some (reqJson
        { scheme := "exact", network := "base-sepolia", payTo := "0xA"
          maxAmountRequired := "1000", resource := "http://localhost:4021/weather"
          maxTimeoutSeconds := 60, asset := usdcBaseSepolia }) ∧
    (handleRequest appRoutes "0xA" appHandlers (fun _ _ => ⟨false, none, none⟩)
        { method := Method.GET, urlScheme := "http", host := "localhost:4021"
          path := "/weather", query := none, xPayment := none }).facilitatorCalls = 0 :=
  missing_payment_402_no_call appRoutes "0xA" appHandlers
    (fun _ _ => ⟨false, none, none⟩)
    { method := Method.GET, urlScheme := "http", host := "localhost:4021"
      path := "/weather", query := none, xPayment := none }
    weatherRoute _ rfl rfl (Or.inl rfl)

/-- C2: two unpaid requests with the same URL scheme, host and path that the
matcher sends to the same configured route receive identical responses —
in particular byte-identical `paymentRequirements` records — whatever the
facilitator would have answered: resolution is pure and cross-request
state-free. -/
theorem unpaid_requirements_deterministic (cfg : List RouteEntry)
    (payTo : String) (handlers : Request → Option Response)
    (fac1 fac2 : String → PaymentRequirement → Verdict) (r1 r2 : Request)
    (e : RouteEntry)
    (hs : r1.urlScheme = r2.urlScheme) (hh : r1.host = r2.host)
    (hp : r1.path = r2.path)
    (hm1 : matchRoute cfg r1.method r1.path = some e)
    (hm2 : matchRoute cfg r2.method r2.path = some e)
    (hx1 : r1.xPayment = none ∨ r1.xPayment = some "")
    (hx2 : r2.xPayment = none ∨ r2.xPayment = some "") :
    (handleRequest cfg payTo handlers fac1 r1).response =
      (handleRequest cfg payTo handlers fac2 r2).response ∧
    bodyField (handleRequest cfg payTo handlers fac1 r1).response.body
        "paymentRequirements" =
      bodyField (handleRequest cfg payTo handlers fac2 r2).response.body
        "paymentRequirements" := by
  have hres : resourceUrl r1 = resourceUrl r2 := by
    unfold resourceUrl
    rw [hs, hh, hp]
  rw [handleRequest_match_some hm1, handleRequest_match_some hm2]
  cases hr : resolve e payTo (resourceUrl r1) with
  | none =>
    have hr2 : resolve e payTo (resourceUrl r2) = none := by rw [← hres]; exact hr
    rw [gateMatched_none hr, gateMatched_none hr2]
    exact ⟨rfl, rfl⟩
  | some pr =>
    have hr2 : resolve e payTo (resourceUrl r2) = some pr := by rw [← hres]; exact hr
    rw [gateMatched_some hr, gateMatched_some hr2]
    rcases hx1 with hx1 | hx1 <;> rcases hx2 with hx2 | hx2
    · rw [gateResolved_absent hx1, gateResolved_absent hx2]; exact ⟨rfl, rfl⟩
    · rw [gateResolved_absent hx1, gateResolved_empty hx2]; exact ⟨rfl, rfl⟩
    · rw [gateResolved_empty hx1, gateResolved_absent hx2]; exact ⟨rfl, rfl⟩
    · rw [gateResolved_empty hx1, gateResolved_empty hx2]; exact ⟨rfl, rfl⟩

/-- Witness for C2: two unpaid `/premium/content` requests differing in
method, query string, header form of missing payment and facilitator
behaviour still receive identical responses and requirements. -/
theorem unpaid_requirements_deterministic_witness :
    (handleRequest appRoutes "0xA" appHandlers (fun _ _ => ⟨false, none, none⟩)
        { method := Method.GET, urlScheme := "http", host := "h"
          path := "/premium/content", query := none, xPayment := none }).response =
      (handleRequest appRoutes "0xA" appHandlers (fun _ _ => ⟨true, some "R", none⟩)
        { method := Method.POST, urlScheme := "http", host := "h"
          path := "/premium/content", query := some "a=1", xPayment := some "" }).response ∧
    bodyField (handleRequest appRoutes "0xA" appHandlers (fun _ _ => ⟨false, none, none⟩)
        { method := Method.GET, urlScheme := "http", host := "h"
          path := "/premium/content", query := none, xPayment := none }).response.body
        "paymentRequirements" =
      bodyField (handleRequest appRoutes "0xA" appHandlers (fun _ _ => ⟨true, some "R", none⟩)
        { method := Method.POST, urlScheme := "http", host := "h"
          path := "/premium/content", query := some "a=1", xPayment := some "" }).response.body
        "paymentRequirements" :=
  unpaid_requirements_deterministic appRoutes "0xA" appHandlers
    (fun _ _ => ⟨false, none, none⟩) (fun _ _ => ⟨true, some "R", none⟩)
    { method := Method.GET, urlScheme := "http", host := "h"
      path := "/premium/content", query := none, xPayment := none }
    { method := Method.POST, urlScheme := "http", host := "h"
      path := "/premium/content", query := some "a=1", xPayment := some "" }
    premiumRoute rfl rfl rfl rfl rfl (Or.inl rfl) (Or.inr rfl)

/-- C7: when a request carries a non-empty proof and the facilitator accepts
with a settlement receipt, the gate delegates to the protected handler and
returns the status and body of that handler, with the `X-PAYMENT-RESPONSE`
header carrying the receipt appended. -/
theorem accepted_payment_delegates (cfg : List RouteEntry) (payTo : String)
    (handlers : Request → Option Response)
    (fac : String → PaymentRequirement → Verdict) (req : Request)
    (e : RouteEntry) (pr : PaymentRequirement) (pf rc : String)
    (hm : matchRoute cfg req.method req.path = some e)
    (hr : resolve e payTo (resourceUrl req) = some pr)
    (hx : req.xPayment = some pf) (hpf : (pf == "") = false)
    (hfac : fac pf pr =
      { accepted := true, settlementReceipt := some rc, reasonCode := none }) :
    (handleRequest cfg payTo handlers fac req).response.status =
      (passthru handlers req).status ∧
    (handleRequest cfg payTo handlers fac req).response.body =
      (passthru handlers req).body ∧
    (handleRequest cfg payTo handlers fac req).response.headers =
      (passthru handlers req).headers ++ [("X-PAYMENT-RESPONSE", rc)] := by
  rw [handleRequest_match_some hm, gateMatched_some hr,
    gateResolved_present hx hpf, gateVerify_accepted hfac]
  exact ⟨rfl, rfl, rfl⟩

/-- Witness for C7: a paid `GET /weather` with an accepting facilitator that
returns receipt `R1` yields the 200 response of the weather handler with the
receipt header appended. -/
theorem accepted_payment_delegates_witness :
    (handleRequest appRoutes "0xA" appHandlers (fun _ _ => ⟨true, some "R1", none⟩)
        { method := Method.GET, urlScheme := "http", host := "localhost:4021"
          path := "/weather", query := none, xPayment := some "deadbeef" }).response.status =
      (passthru appHandlers
        { method := Method.GET, urlScheme := "http", host := "localhost:4021"
          path := "/weather", query := none, xPayment := some "deadbeef" }).status ∧
    (handleRequest appRoutes "0xA" appHandlers (fun _ _ => ⟨true, some "R1", none⟩)
        { method := Method.GET, urlScheme := "http", host := "localhost:4021"
          path := "/weather", query := none, xPayment := some "deadbeef" }).response.body =
      (passthru appHandlers
        { method := Method.GET, urlScheme := "http", host := "localhost:4021"
          path := "/weather", query := none, xPayment := some "deadbeef" }).body ∧
    (handleRequest appRoutes "0xA" appHandlers (fun _ _ => ⟨true, some "R1", none⟩)
        { method := Method.GET, urlScheme := "http", host := "localhost:4021"
          path := "/weather", query := none, xPayment := some "deadbeef" }).response.headers =
      (passthru appHandlers
        { method := Method.GET, urlScheme := "http", host := "localhost:4021"
          path := "/weather", query := none, xPayment := some "deadbeef" }).headers ++
        [("X-PAYMENT-RESPONSE", "R1")] :=
  accepted_payment_delegates appRoutes "0xA" appHandlers
    (fun _ _ => ⟨true, some "R1", none⟩)
    { method := Method.GET, urlScheme := "http", host := "localhost:4021"
      path := "/weather", query := none, xPayment := some "deadbeef" }
    weatherRoute _ "deadbeef" "R1" rfl rfl rfl rfl rfl

/-- C6: for every configuration, whenever some exact pattern matches the
request (method, path), the matcher returns an exact entry whose pattern is
that very path — an exact match wins unconditionally over any overlapping
wildcard candidates, regardless of pattern ordering. -/
theorem exact_match_wins (cfg : List RouteEntry) (m : Method) (p : String)
    (e : RouteEntry) (he : e ∈ cfg) (hex : isExact e = true)
    (hmt : entryMatches e m p = true) :
    ∃ e2, matchRoute cfg m p = some e2 ∧ isExact e2 = true ∧
      e2.pattern = p ∧ methodMatches e2.method m = true := by
  have hsome : (cfg.find? (fun x => isExact x && entryMatches x m p)).isSome := by
    rw [List.find?_isSome]
    exact ⟨e, he, by rw [hex, hmt]; rfl⟩
  obtain ⟨e2, hfind⟩ := Option.isSome_iff_exists.mp hsome
  have hpred := List.find?_some hfind
  rw [Bool.and_eq_true] at hpred
  have hex2 := hpred.1
  have hem2 : (methodMatches e2.method m && patternMatchesPath e2.pattern p) = true :=
    hpred.2
  rw [Bool.and_eq_true] at hem2
  have hw : isWildcard e2.pattern = false := by
    have hb : (!(isWildcard e2.pattern)) = true := hex2
    simp at hb
    exact hb
  have hpp : (e2.pattern == p) = true := by
    have hpm : (if isWildcard e2.pattern then strStarts p (wildcardStem e2.pattern)
        else e2.pattern == p) = true := hem2.2
    rw [hw] at hpm
    exact hpm
  refine ⟨e2, ?_, hex2, eq_of_beq hpp, hem2.1⟩
  unfold matchRoute
  rw [hfind]

/-- Exact-route entry overlapping the wildcard `/premium/*`, used to witness
that an exact pattern beats a wildcard even when listed after it. -/
def exactPremiumContent : RouteEntry :=
  { method := some Method.GET
    pattern := "/premium/content"
    price := PriceSpec.dollar "$0.002"
    network := "base-sepolia" }

/-- Witness for C6: with the wildcard listed first, the matcher still
returns an exact entry for `GET /premium/content`. -/
theorem exact_match_wins_witness :
    ∃ e2, matchRoute [premiumRoute, exactPremiumContent] Method.GET
        "/premium/content" = some e2 ∧ isExact e2 = true ∧
      e2.pattern = "/premium/content" ∧
      methodMatches e2.method Method.GET = true :=
  exact_match_wins [premiumRoute, exactPremiumContent] Method.GET
    "/premium/content" exactPremiumContent (by decide) rfl rfl

/-- Counterexample for C4 as stated: a `HEAD` request to the configured
`/weather` path — a method differing from the GET-only pattern — is served
by Express through the registered `GET` handler with status 200, not the
claimed 404 (and `OPTIONS` is likewise auto-answered 200). -/
theorem method_mismatch_head_not_404 :
    (appHandle "0xA" (fun _ _ => ⟨false, none, none⟩)
        { method := Method.HEAD, urlScheme := "http", host := "localhost:4021"
          path := "/weather", query := none, xPayment := none }).response.status = 200 ∧
    (appHandle "0xA" (fun _ _ => ⟨false, none, none⟩)
        { method := Method.HEAD, urlScheme := "http", host := "localhost:4021"
          path := "/weather", query := none, xPayment := none }).response.status ≠ 404 :=
  ⟨rfl, (by decide : (200 : Nat) ≠ 404)⟩

/-- C4 amended: a method mismatch is a non-match for the payment gate — the
matcher only ever selects method-matching entries, and no non-GET request to
the configured `/weather` path is ever rejected with 402. The normal 404
outcome holds for the methods without an Express fallback (POST, PUT,
DELETE, PATCH); `HEAD` is served through the registered `GET` handler with
200 and `OPTIONS` is auto-answered 200 with `Allow: GET,HEAD`. -/
theorem method_mismatch_never_402 :
    (∀ (cfg : List RouteEntry) (m : Method) (p : String) (e : RouteEntry),
        matchRoute cfg m p = some e → methodMatches e.method m = true) ∧
    (∀ (payTo sch host : String) (qs xp : Option String)
        (fac : String → PaymentRequirement → Verdict) (m : Method),
        m ≠ Method.GET →
        (appHandle payTo fac
            { method := m, urlScheme := sch, host := host, path := "/weather"
              query := qs, xPayment := xp }).response.status ≠ 402) ∧
    (∀ (payTo sch host : String) (qs xp : Option String)
        (fac : String → PaymentRequirement → Verdict) (m : Method),
        (m = Method.POST ∨ m = Method.PUT ∨ m = Method.DELETE ∨ m = Method.PATCH) →
        (appHandle payTo fac
            { method := m, urlScheme := sch, host := host, path := "/weather"
              query := qs, xPayment := xp }).response.status = 404) ∧
    (∀ (payTo sch host : String) (qs xp : Option String)
        (fac : String → PaymentRequirement → Verdict),
        (appHandle payTo fac
            { method := Method.HEAD, urlScheme := sch, host := host
              path := "/weather", query := qs, xPayment := xp }).response.status = 200) ∧
    (∀ (payTo sch host : String) (qs xp : Option String)
        (fac : String → PaymentRequirement → Verdict),
        (appHandle payTo fac
            { method := Method.OPTIONS, urlScheme := sch, host := host
              path := "/weather", query := qs, xPayment := xp }).response.status = 200 ∧
        (appHandle payTo fac
            { method := Method.OPTIONS, urlScheme := sch, host := host
              path := "/weather", query := qs, xPayment := xp }).response.headers =
          [("Allow", "GET,HEAD")]) := by
  refine ⟨?_, ?_, ?_, ?_, ?_⟩
  · intro cfg m p e hm
    have hem := matchRoute_matches hm
    have hem2 : (methodMatches e.method m && patternMatchesPath e.pattern p) = true :=
      hem
    rw [Bool.and_eq_true] at hem2
    exact hem2.1
  · intro payTo sch host qs xp fac m hm
    cases m with
    | GET => exact absurd rfl hm
    | POST => exact (by decide : (404 : Nat) ≠ 402)
    | PUT => exact (by decide : (404 : Nat) ≠ 402)
    | DELETE => exact (by decide : (404 : Nat) ≠ 402)
    | PATCH => exact (by decide : (404 : Nat) ≠ 402)
    | HEAD => exact (by decide : (200 : Nat) ≠ 402)
    | OPTIONS => exact (by decide : (200 : Nat) ≠ 402)
  · intro payTo sch host qs xp fac m hm
    rcases hm with hm | hm | hm | hm <;> subst hm <;> rfl
  · intro payTo sch host qs xp fac
    rfl
  · intro payTo sch host qs xp fac
    exact ⟨rfl, rfl⟩

/-- Witness for the amended C4: the matcher pick for `GET /weather` is
method-matched; concrete `POST /weather` is 404 and not 402; concrete
`HEAD /weather` is 200 and `OPTIONS /weather` is 200. -/
theorem method_mismatch_never_402_witness :
    methodMatches weatherRoute.method Method.GET = true ∧
    (appHandle "0xA" (fun _ _ => ⟨false, none, none⟩)
        { method := Method.POST, urlScheme := "http", host := "localhost:4021"
          path := "/weather", query := none, xPayment := none }).response.status ≠ 402 ∧
    (appHandle "0xA" (fun _ _ => ⟨false, none, none⟩)
        { method := Method.POST, urlScheme := "http", host := "localhost:4021"
          path := "/weather", query := none, xPayment := none }).response.status = 404 ∧
    (appHandle "0xA" (fun _ _ => ⟨false, none, none⟩)
        { method := Method.HEAD, urlScheme := "http", host := "localhost:4021"
          path := "/weather", query := none, xPayment := none }).response.status = 200 ∧
    (appHandle "0xA" (fun _ _ => ⟨false, none, none⟩)
        { method := Method.OPTIONS, urlScheme := "http", host := "localhost:4021"
          path := "/weather", query := none, xPayment := none }).response.status = 200 :=
  ⟨method_mismatch_never_402.1 appRoutes Method.GET "/weather" weatherRoute rfl
  , method_mismatch_never_402.2.1 "0xA" "http" "localhost:4021" none none
      (fun _ _ => ⟨false, none, none⟩) Method.POST (by decide)
  , method_mismatch_never_402.2.2.1 "0xA" "http" "localhost:4021" none none
      (fun _ _ => ⟨false, none, none⟩) Method.POST (Or.inl rfl)
  , method_mismatch_never_402.2.2.2.1 "0xA" "http" "localhost:4021" none none
      (fun _ _ => ⟨false, none, none⟩)
  , (method_mismatch_never_402.2.2.2.2 "0xA" "http" "localhost:4021" none none
      (fun _ _ => ⟨false, none, none⟩)).1⟩

/-- C8: the `/premium/*` entry carries no method restriction — unlike the
method-restricted `GET /weather` entry — so for every HTTP method, an unpaid
request to any path under `/premium/` is payment-gated with 402. -/
theorem premium_route_unrestricted :
    premiumRoute.method = none ∧ weatherRoute.method = some Method.GET ∧
    ∀ (m : Method) (payTo sch host : String) (qs : Option String)
      (fac : String → PaymentRequirement → Verdict) (path : String),
      strStarts path "/premium/" = true →
      (appHandle payTo fac
          { method := m, urlScheme := sch, host := host, path := path
            query := qs, xPayment := none }).response.status = 402 := by
  refine ⟨rfl, rfl, ?_⟩
  intro m payTo sch host qs fac path hpath
  have hne : (("/weather" : String) == path) = false := by
    cases hbe : (("/weather" : String) == path) with
    | false => rfl
    | true =>
      exfalso
      have heq : "/weather" = path := eq_of_beq hbe
      rw [← heq] at hpath
      exact absurd hpath (by decide)
  have hpw : (isExact weatherRoute && entryMatches weatherRoute m path) = false := by
    have h1 : entryMatches weatherRoute m path =
        (methodMatches (some Method.GET) m && (("/weather" : String) == path)) := rfl
    rw [h1, hne]
    simp
  have hpp : (isExact premiumRoute && entryMatches premiumRoute m path) = false := by
    rw [show isExact premiumRoute = false from rfl]
    simp
  have hfind : List.find? (fun e => isExact e && entryMatches e m path)
      [weatherRoute, premiumRoute] = none := by
    rw [List.find?_cons_of_neg _ (by simp [hpw]),
      List.find?_cons_of_neg _ (by simp [hpp])]
    rfl
  have hw0 : (!(isExact weatherRoute) && entryMatches weatherRoute m path) = false := by
    rw [show (!(isExact weatherRoute)) = false from rfl]
    simp
  have hfilter : List.filter (fun e => !(isExact e) && entryMatches e m path)
      [weatherRoute, premiumRoute] = [premiumRoute] := by
    rw [List.filter_cons_of_neg (by simp [hw0]),
      List.filter_cons_of_pos ?hpos]
    case hpos =>
      show (!(isExact premiumRoute) && entryMatches premiumRoute m path) = true
      have h2 : entryMatches premiumRoute m path = strStarts path "/premium/" := rfl
      rw [h2, hpath]
      rfl
    rfl
  have hm : matchRoute appRoutes m path = some premiumRoute := by
    unfold matchRoute appRoutes
    rw [hfind, hfilter]
    rfl
  have hm2 : matchRoute appRoutes
      ({ method := m, urlScheme := sch, host := host, path := path
         query := qs, xPayment := none } : Request).method
      ({ method := m, urlScheme := sch, host := host, path := path
         query := qs, xPayment := none } : Request).path = some premiumRoute := hm
  unfold appHandle
  rw [handleRequest_match_some hm2]
  rfl

/-- Witness for C8: an unpaid `POST /premium/content` is gated with 402. -/
theorem premium_route_unrestricted_witness :
    (appHandle "0xA" (fun _ _ => ⟨false, none, none⟩)
        { method := Method.POST, urlScheme := "http", host := "h"
          path := "/premium/content", query := none
          xPayment := none }).response.status = 402 :=
  premium_route_unrestricted.2.2 Method.POST "0xA" "http" "h" none
    (fun _ _ => ⟨false, none, none⟩) "/premium/content" rfl
